import Mathlib

/-
Verification development for the TaskChampion sync server core.

The Rust sources are shallowly embedded:
  * UUIDs are modelled as `Nat`, with `0` playing the role of the nil UUID
    (`Uuid::nil()`, the all-zero UUID).
  * Byte strings (`Vec<u8>`) are `List Nat`.
  * Timestamps (`chrono::DateTime<Utc>`, second precision) are `Int`
    seconds since the epoch; `chrono::Duration::num_days` is truncating
    division of the second count by 86400, i.e. `Int.tdiv`.
  * Hash maps / SQL tables are association lists with `lookupKey` /
    `upsertKey` below.
  * Fallible Rust functions returning `anyhow::Result` become
    `Except String`; the protocol engine's `ServerError` becomes `SvError`.
  * Rust `i64` division (`/`) truncates toward zero, hence `Int.tdiv`;
    `u32` arithmetic wraps modulo 2^32 where an overflow is reachable.
-/

namespace TCSync

/-- Lookup in an association list used to model `HashMap` and SQL tables
keyed by a primary key. -/
def lookupKey {κ β : Type} [DecidableEq κ] (k : κ) : List (κ × β) → Option β
  | [] => none
  | (k₂, v) :: rest => if k = k₂ then some v else lookupKey k rest

/-- Insert-or-replace in an association list (`HashMap::insert` / SQL
`INSERT` or `UPDATE` of a row identified by its key). -/
def upsertKey {κ β : Type} [DecidableEq κ] (k : κ) (v : β) : List (κ × β) → List (κ × β)
  | [] => [(k, v)]
  | (k₂, w) :: rest => if k = k₂ then (k, v) :: rest else (k₂, w) :: upsertKey k v rest

theorem lookupKey_upsertKey_self {κ β : Type} [DecidableEq κ] (k : κ) (v : β)
    (l : List (κ × β)) : lookupKey k (upsertKey k v l) = some v := by
  induction l with
  | nil => simp [lookupKey, upsertKey]
  | cons hd tl ih =>
    by_cases h : k = hd.1
    · simp [lookupKey, upsertKey, h]
    · simp [lookupKey, upsertKey, h, ih]

theorem lookupKey_upsertKey_ne {κ β : Type} [DecidableEq κ] {k k₂ : κ} (h : k₂ ≠ k)
    (v : β) (l : List (κ × β)) : lookupKey k₂ (upsertKey k v l) = lookupKey k₂ l := by
  induction l with
  | nil => simp [lookupKey, upsertKey, h]
  | cons hd tl ih =>
    by_cases h₂ : k = hd.1
    · subst h₂
      simp [lookupKey, upsertKey, h]
    · by_cases h₃ : k₂ = hd.1 <;> simp [lookupKey, upsertKey, h₂, h₃, ih]

/-! Data model from `src/core/src/storage.rs`. -/

/-- Metadata about a snapshot (`storage.rs`, `struct Snapshot`).
`versions_since` is a `u32` in Rust; its own wrap-around (after 2^32
increments) is unreachable and not modelled. -/
structure Snapshot where
  version_id : Nat
  timestamp : Int
  versions_since : Nat
deriving DecidableEq

/-- Stored metadata about a client (`storage.rs`, `struct Client`). -/
structure Client where
  latest_version_id : Nat
  snapshot : Option Snapshot
deriving DecidableEq

/-- One link in a client's version chain (`storage.rs`, `struct Version`). -/
structure Version where
  version_id : Nat
  parent_version_id : Nat
  history_segment : List Nat
deriving DecidableEq

/-! In-memory storage backend from `src/core/src/inmemory.rs`. -/

/-- State of `InMemoryStorage` (`inmemory.rs`, `struct Inner`): four maps,
keyed exactly as in the source. -/
structure Inner where
  clients : List (Nat × Client)
  snapshots : List (Nat × List Nat)
  versions : List ((Nat × Nat) × Version)
  children : List ((Nat × Nat) × Nat)
deriving DecidableEq

/-- Transactional read `get_client` (`inmemory.rs`). -/
def Inner.get_client (st : Inner) (cid : Nat) : Option Client :=
  lookupKey cid st.clients

/-- Transactional write `new_client` (`inmemory.rs`): fails if the client
already exists. Error strings drop the interpolated ids of the source. -/
def Inner.new_client (st : Inner) (cid latest_version_id : Nat) : Except String Inner :=
  if (lookupKey cid st.clients).isSome then
    .error "Client already exists"
  else
    .ok { st with clients := upsertKey cid ⟨latest_version_id, none⟩ st.clients }

/-- Transactional write `set_snapshot` (`inmemory.rs`): replaces the
client's snapshot metadata and bytes. -/
def Inner.set_snapshot (st : Inner) (cid : Nat) (snap : Snapshot) (data : List Nat) :
    Except String Inner :=
  match lookupKey cid st.clients with
  | none => .error "no such client"
  | some client =>
    .ok { st with
      clients := upsertKey cid { client with snapshot := some snap } st.clients,
      snapshots := upsertKey cid data st.snapshots }

/-- Transactional read `get_snapshot_data` (`inmemory.rs`): errors unless
the requested version matches the current snapshot's version. -/
def Inner.get_snapshot_data (st : Inner) (cid version_id : Nat) :
    Except String (Option (List Nat)) :=
  match lookupKey cid st.clients with
  | none => .error "no such client"
  | some client =>
    if some version_id ≠ client.snapshot.map (·.version_id) then
      .error "unexpected snapshot_version_id"
    else
      .ok (lookupKey cid st.snapshots)

/-- Transactional read `get_version_by_parent` (`inmemory.rs`): the
`children` map gives the child's id, then the `versions` map is consulted. -/
def Inner.get_version_by_parent (st : Inner) (cid parent_version_id : Nat) : Option Version :=
  match lookupKey (cid, parent_version_id) st.children with
  | some child => lookupKey (cid, child) st.versions
  | none => none

/-- Transactional read `get_version` (`inmemory.rs`). -/
def Inner.get_version (st : Inner) (cid version_id : Nat) : Option Version :=
  lookupKey (cid, version_id) st.versions

/-- Transactional write `add_version` (`inmemory.rs`). The source mutates
the client (new latest, bumped `versions_since`) before checking for an
existing child or version, and bails with an error in those cases; on the
error paths the source leaves the shared maps partially mutated (and the
transaction uncommitted), which no committed state can observe, so the
error result here carries no state. Note that, unlike the SQL backends,
this backend never compares `latest_version_id` with `parent_version_id`. -/
def Inner.add_version (st : Inner) (cid version_id parent_version_id : Nat)
    (history_segment : List Nat) : Except String Inner :=
  match lookupKey cid st.clients with
  | none => .error "Client does not exist"
  | some client =>
    let client' : Client :=
      { latest_version_id := version_id,
        snapshot := client.snapshot.map (fun s => { s with versions_since := s.versions_since + 1 }) }
    let st₁ := { st with clients := upsertKey cid client' st.clients }
    if (lookupKey (cid, parent_version_id) st₁.children).isSome then
      .error "Client already has a child"
    else
      let st₂ := { st₁ with children := upsertKey (cid, parent_version_id) version_id st₁.children }
      if (lookupKey (cid, version_id) st₂.versions).isSome then
        .error "Client already has a version"
      else
        .ok { st₂ with
          versions := upsertKey (cid, version_id)
            ⟨version_id, parent_version_id, history_segment⟩ st₂.versions }

/-! Protocol engine from `src/core/src/server.rs`, specialized to the
in-memory storage backend (the backend the core's own tests run it on). -/

/-- Engine configuration (`server.rs`, `struct ServerConfig`):
`snapshot_days` is an `i64`, `snapshot_versions` a `u32`. -/
structure ServerConfig where
  snapshot_days : Int
  snapshot_versions : Nat
deriving DecidableEq

/-- Response to `get_child_version` (`server.rs`, `enum GetVersionResult`). -/
inductive GetVersionResult where
  | NotFound
  | Gone
  | Success (version_id parent_version_id : Nat) (history_segment : List Nat)
deriving DecidableEq

/-- Response to `add_version` (`server.rs`, `enum AddVersionResult`). -/
inductive AddVersionResult where
  | Ok (version_id : Nat)
  | ExpectedParentVersion (version_id : Nat)
deriving DecidableEq

/-- Snapshot urgency (`server.rs`, `enum SnapshotUrgency`), ordered
`None < Low < High` by the derived `Ord`. -/
inductive SnapshotUrgency where
  | None
  | Low
  | High
deriving DecidableEq

/-- Rank realizing the derived `Ord` on `SnapshotUrgency`. -/
def SnapshotUrgency.rank : SnapshotUrgency → Nat
  | .None => 0
  | .Low => 1
  | .High => 2

/-- Binary maximum used as `std::cmp::max` on `SnapshotUrgency`. -/
def SnapshotUrgency.max (a b : SnapshotUrgency) : SnapshotUrgency :=
  if a.rank < b.rank then b else a

/-- Two's-complement wrap-around of a 64-bit signed intermediate result,
as Rust `i64` arithmetic behaves in release builds (debug builds panic on
overflow instead; the overflowing program state is a Rust program error
either way, and the wrapping value is what a running release server
computes). -/
def wrapI64 (x : Int) : Int :=
  (x + 9223372036854775808) % 18446744073709551616 - 9223372036854775808

/-- Urgency from the snapshot's age in days (`server.rs`,
`SnapshotUrgency::for_days`). The product `snapshot_days * 3` is `i64`
arithmetic, hence the explicit two's-complement wrap, and Rust `i64`
division truncates toward zero, hence `Int.tdiv`. -/
def SnapshotUrgency.for_days (config : ServerConfig) (days : Int) : SnapshotUrgency :=
  if days ≥ Int.tdiv (wrapI64 (config.snapshot_days * 3)) 2 then .High
  else if days ≥ config.snapshot_days then .Low
  else .None

/-- Urgency from the number of versions since the snapshot (`server.rs`,
`SnapshotUrgency::for_versions_since`). The product `snapshot_versions * 3`
is computed in `u32`, hence the explicit reduction modulo 2^32. -/
def SnapshotUrgency.for_versions_since (config : ServerConfig) (versions_since : Nat) :
    SnapshotUrgency :=
  if versions_since ≥ config.snapshot_versions * 3 % 4294967296 / 2 then .High
  else if versions_since ≥ config.snapshot_versions then .Low
  else .None

/-- Error taxonomy of the engine (`src/core/src/error.rs`,
`enum ServerError`). -/
inductive SvError where
  | NoSuchClient
  | Other (msg : String)
deriving DecidableEq

/-- Urgency computation performed by `Server::add_version` after commit:
the maximum of the day-based and version-based urgencies of the client
record read at the start of the transaction, each `High` when the client
has no snapshot. `now` is the value of `Utc::now()` in seconds. -/
def preCallUrgency (config : ServerConfig) (client : Client) (now : Int) : SnapshotUrgency :=
  SnapshotUrgency.max
    (match client.snapshot with
     | none => .High
     | some s => SnapshotUrgency.for_days config (Int.tdiv (now - s.timestamp) 86400))
    (match client.snapshot with
     | none => .High
     | some s => SnapshotUrgency.for_versions_since config s.versions_since)

/-- The engine's `Server::add_version` (`server.rs`). The randomly
generated UUID is the explicit argument `freshId`, and `Utc::now()` is
the explicit argument `now` (seconds). The in-memory `commit` only marks
the transaction committed, so the successful state is the storage state
returned by `Inner.add_version`. -/
def Server.add_version (config : ServerConfig) (st : Inner) (cid parent_version_id : Nat)
    (history_segment : List Nat) (freshId : Nat) (now : Int) :
    Except SvError ((AddVersionResult × SnapshotUrgency) × Inner) :=
  match Inner.get_client st cid with
  | none => .error .NoSuchClient
  | some client =>
    if client.latest_version_id ≠ 0 ∧ parent_version_id ≠ client.latest_version_id then
      .ok ((.ExpectedParentVersion client.latest_version_id, .None), st)
    else
      match Inner.add_version st cid freshId parent_version_id history_segment with
      | .error e => .error (.Other e)
      | .ok st' => .ok ((.Ok freshId, preCallUrgency config client now), st')

/-- The engine's `Server::get_child_version` (`server.rs`). -/
def Server.get_child_version (st : Inner) (cid parent_version_id : Nat) :
    Except SvError GetVersionResult :=
  match Inner.get_client st cid with
  | none => .error .NoSuchClient
  | some client =>
    match Inner.get_version_by_parent st cid parent_version_id with
    | some v => .ok (.Success v.version_id v.parent_version_id v.history_segment)
    | none =>
      .ok (if client.latest_version_id = parent_version_id ∨ client.latest_version_id = 0 then
             .NotFound
           else .Gone)

/-- The chain walk of `Server::add_snapshot` (`server.rs`, the `loop`).
`searchLen` is the running value of the `search_len` counter (an `i32`
initialized to `SNAPSHOT_SEARCH_LEN = 5` and only ever decremented; the
source's `search_len <= 0` exit is the `n = 0` test after the decrement
realized by the `n + 1` pattern). Returns `true` when the snapshot is
accepted. -/
def snapshotLoop (st : Inner) (cid : Nat) (lastSnap : Option Nat) (target : Nat) :
    Nat → Nat → Bool
  | searchLen, vid =>
    if vid = target ∧ target ≠ 0 then true
    else if some vid = lastSnap then false
    else
      match searchLen with
      | 0 => false
      | n + 1 =>
        if n = 0 ∨ vid = 0 then false
        else
          match Inner.get_version st cid vid with
          | some p => snapshotLoop st cid lastSnap target n p.parent_version_id
          | none => false

/-- The engine's `Server::add_snapshot` (`server.rs`). All rejection paths
of the source log and return `Ok(())` with nothing written. -/
def Server.add_snapshot (st : Inner) (cid version_id : Nat) (data : List Nat) (now : Int) :
    Except SvError Inner :=
  match Inner.get_client st cid with
  | none => .error .NoSuchClient
  | some client =>
    let lastSnap := client.snapshot.map (·.version_id)
    if some version_id = lastSnap then .ok st
    else if snapshotLoop st cid lastSnap version_id 5 client.latest_version_id then
      match Inner.set_snapshot st cid ⟨version_id, now, 0⟩ data with
      | .error e => .error (.Other e)
      | .ok st' => .ok st'
    else .ok st

/-- Number of `txn.get_version` calls made by the chain walk of
`Server::add_snapshot`, mirroring `snapshotLoop` branch for branch. -/
def snapshotLoopCalls (st : Inner) (cid : Nat) (lastSnap : Option Nat) (target : Nat) :
    Nat → Nat → Nat
  | searchLen, vid =>
    if vid = target ∧ target ≠ 0 then 0
    else if some vid = lastSnap then 0
    else
      match searchLen with
      | 0 => 0
      | n + 1 =>
        if n = 0 ∨ vid = 0 then 0
        else
          match Inner.get_version st cid vid with
          | some p => 1 + snapshotLoopCalls st cid lastSnap target n p.parent_version_id
          | none => 1

/-- Number of `txn.get_version` calls made by `Server::add_snapshot`:
the walk is the only place the operation reads versions. -/
def Server.add_snapshot_gv_calls (st : Inner) (cid version_id : Nat) : Nat :=
  match Inner.get_client st cid with
  | none => 0
  | some client =>
    let lastSnap := client.snapshot.map (·.version_id)
    if some version_id = lastSnap then 0
    else snapshotLoopCalls st cid lastSnap version_id 5 client.latest_version_id

/-! SQLite storage backend from `src/sqlite/src/lib.rs`. -/

/-- One row of the sqlite `clients` table. The snapshot columns may be
NULL, modelled by `Option`. -/
structure SqliteClientRow where
  latest_version_id : Nat
  snapshot_version_id : Option Nat
  versions_since_snapshot : Option Nat
  snapshot_timestamp : Option Int
  snapshot : Option (List Nat)
deriving DecidableEq

/-- The sqlite database: the `clients` table keyed by `client_id` and the
`versions` table keyed by its primary key `version_id` (the key is global,
not per client; rows carry `client_id` and `parent_version_id`). -/
structure SqliteDb where
  clients : List (Nat × SqliteClientRow)
  versions : List (Nat × (Nat × Nat × List Nat))
deriving DecidableEq

/-- Sqlite `Txn::get_client` (`sqlite/src/lib.rs`): the snapshot is
reconstructed only when all three snapshot columns are non-NULL. -/
def SqliteDb.get_client (db : SqliteDb) (cid : Nat) : Option Client :=
  (lookupKey cid db.clients).map (fun row =>
    { latest_version_id := row.latest_version_id,
      snapshot :=
        match row.snapshot_timestamp, row.versions_since_snapshot, row.snapshot_version_id with
        | some ts, some vs, some v => some ⟨v, ts, vs⟩
        | _, _, _ => none })

/-- Sqlite `Txn::new_client`: an INSERT that fails on an existing
`client_id` (primary key); only `latest_version_id` is set, snapshot
columns stay NULL. -/
def SqliteDb.new_client (db : SqliteDb) (cid latest_version_id : Nat) :
    Except String SqliteDb :=
  if (lookupKey cid db.clients).isSome then
    .error "Error creating/updating client"
  else
    .ok { db with clients := upsertKey cid ⟨latest_version_id, none, none, none, none⟩ db.clients }

/-- Sqlite `Txn::set_snapshot`: an unconditional UPDATE of the four
snapshot columns of the client's row. -/
def SqliteDb.set_snapshot (db : SqliteDb) (cid : Nat) (snap : Snapshot) (data : List Nat) :
    Except String SqliteDb :=
  match lookupKey cid db.clients with
  | none => .ok db
  | some row =>
    let row' := { row with
      snapshot_version_id := some snap.version_id,
      snapshot_timestamp := some snap.timestamp,
      versions_since_snapshot := some snap.versions_since,
      snapshot := some data }
    .ok { db with clients := upsertKey cid row' db.clients }

/-- Sqlite `Txn::get_snapshot_data`: reads `snapshot` and
`snapshot_version_id` from the client's row. A missing row yields `none`;
a row whose snapshot columns are NULL fails the column conversion; a row
whose `snapshot_version_id` differs from the argument is the mismatch
error. -/
def SqliteDb.get_snapshot_data (db : SqliteDb) (cid version_id : Nat) :
    Except String (Option (List Nat)) :=
  match lookupKey cid db.clients with
  | none => .ok none
  | some row =>
    match row.snapshot_version_id, row.snapshot with
    | some v, some d =>
      if v ≠ version_id then .error "unexpected snapshot_version_id"
      else .ok (some d)
    | _, _ => .error "Error getting snapshot"

/-- Sqlite `Txn::get_version_by_parent`: first row of the `versions`
table with this client and parent. -/
def SqliteDb.get_version_by_parent (db : SqliteDb) (cid parent_version_id : Nat) :
    Option Version :=
  (db.versions.find? (fun r => r.2.1 = cid ∧ r.2.2.1 = parent_version_id)).map
    (fun r => ⟨r.1, r.2.2.1, r.2.2.2⟩)

/-- Sqlite `Txn::get_version`: the row with this primary key, if it
belongs to this client. -/
def SqliteDb.get_version (db : SqliteDb) (cid version_id : Nat) : Option Version :=
  match lookupKey version_id db.versions with
  | some (cid₂, parent, seg) => if cid₂ = cid then some ⟨version_id, parent, seg⟩ else none
  | none => none

/-- Sqlite `Txn::add_version`: INSERT the version (failing on a duplicate
`version_id`, the table's primary key), then the conditional UPDATE
`SET latest_version_id = ?, versions_since_snapshot = versions_since_snapshot + 1
WHERE client_id = ? AND (latest_version_id = parent OR latest_version_id = nil)`;
zero rows changed is the parent-mismatch error. NULL + 1 is NULL, hence
the `Option.map` on `versions_since_snapshot`. -/
def SqliteDb.add_version (db : SqliteDb) (cid version_id parent_version_id : Nat)
    (history_segment : List Nat) : Except String SqliteDb :=
  if (lookupKey version_id db.versions).isSome then
    .error "Error adding version"
  else
    let db₁ := { db with
      versions := upsertKey version_id (cid, parent_version_id, history_segment) db.versions }
    match lookupKey cid db₁.clients with
    | some row =>
      if row.latest_version_id = parent_version_id ∨ row.latest_version_id = 0 then
        let row' := { row with
          latest_version_id := version_id,
          versions_since_snapshot := row.versions_since_snapshot.map (· + 1) }
        .ok { db₁ with clients := upsertKey cid row' db₁.clients }
      else .error "clients.latest_version_id does not match parent_version_id"
    | none => .error "clients.latest_version_id does not match parent_version_id"

/-- A sqlite transaction (`sqlite/src/lib.rs`, `struct Txn`): a fresh
connection with `BEGIN IMMEDIATE` issued. `base` is the durable state at
`begin_txn`; `pending` accumulates the transaction's uncommitted writes.
The struct has no `Drop` implementation and no written/committed flags:
dropping it closes the connection, which rolls the open transaction back
(SQLite semantics), and raises no fatal condition. -/
structure SqliteTxn where
  base : SqliteDb
  pending : SqliteDb
deriving DecidableEq

/-- Durable state after `Txn::commit` (`COMMIT` publishes the writes). -/
def SqliteTxn.commit (t : SqliteTxn) : SqliteDb := t.pending

/-- Durable state after dropping the transaction without `commit`: the
implicit rollback restores the state at `begin_txn`. -/
def SqliteTxn.drop (t : SqliteTxn) : SqliteDb := t.base

/-- Whether dropping the transaction raises a fatal condition: the sqlite
`Txn` has no `Drop` implementation, so it never does, regardless of any
writes performed. -/
def SqliteTxn.dropPanicFlag (_ : SqliteTxn) : Bool := false

/-- Transactional `add_version` acting on the pending state of a sqlite
transaction. -/
def SqliteTxn.add_version (t : SqliteTxn) (cid version_id parent_version_id : Nat)
    (history_segment : List Nat) : Except String SqliteTxn :=
  (SqliteDb.add_version t.pending cid version_id parent_version_id history_segment).map
    (fun db => { t with pending := db })

/-- Whether dropping an in-memory transaction raises the fatal condition
(`inmemory.rs`, `impl Drop for InnerTxn`): it panics exactly when the
transaction performed writes and was not committed. -/
def inMemoryDropPanicFlag (written committed : Bool) : Bool := written && !committed

/-! Postgres storage backend from `src/postgres/src/lib.rs`. -/

/-- One row of the postgres `clients` table (same shape as sqlite's). -/
structure PgClientRow where
  latest_version_id : Nat
  snapshot_version_id : Option Nat
  versions_since_snapshot : Option Nat
  snapshot_timestamp : Option Int
  snapshot : Option (List Nat)
deriving DecidableEq

/-- The postgres database. Modelled from the spec: the schema itself
(`postgres/schema.sql`) is external to the crate; per the storage
contract's "`add_version` fails if the version already exists" and the
sqlite schema it mirrors, the `versions` table is keyed by its primary
key `version_id`. -/
structure PgDb where
  clients : List (Nat × PgClientRow)
  versions : List (Nat × (Nat × Nat × List Nat))
deriving DecidableEq

/-- Postgres `Txn::get_client` (`postgres/src/lib.rs`). -/
def PgDb.get_client (db : PgDb) (cid : Nat) : Option Client :=
  (lookupKey cid db.clients).map (fun row =>
    { latest_version_id := row.latest_version_id,
      snapshot :=
        match row.snapshot_timestamp, row.versions_since_snapshot, row.snapshot_version_id with
        | some ts, some vs, some v => some ⟨v, ts, vs⟩
        | _, _, _ => none })

/-- Postgres `Txn::get_snapshot_data`: `SELECT snapshot FROM clients WHERE
client_id = $1 AND snapshot_version_id = $2`. When no row matches (no such
client, or a snapshot version different from the argument) the result is
`none` — no error is signalled. A matching row whose `snapshot` column is
NULL cannot be produced by `set_snapshot` and is not modelled. -/
def PgDb.get_snapshot_data (db : PgDb) (cid version_id : Nat) :
    Except String (Option (List Nat)) :=
  match lookupKey cid db.clients with
  | none => .ok none
  | some row =>
    if row.snapshot_version_id = some version_id then .ok row.snapshot
    else .ok none

/-- Postgres `Txn::set_snapshot`: unconditional UPDATE of the four
snapshot columns. -/
def PgDb.set_snapshot (db : PgDb) (cid : Nat) (snap : Snapshot) (data : List Nat) :
    Except String PgDb :=
  match lookupKey cid db.clients with
  | none => .ok db
  | some row =>
    let row' := { row with
      snapshot_version_id := some snap.version_id,
      snapshot_timestamp := some snap.timestamp,
      versions_since_snapshot := some snap.versions_since,
      snapshot := some data }
    .ok { db with clients := upsertKey cid row' db.clients }

/-- Postgres `Txn::add_version`: INSERT the version (failing on a
duplicate primary key `version_id`), then the strict conditional UPDATE
`SET latest_version_id = $1, versions_since_snapshot = versions_since_snapshot + 1
WHERE client_id = $2 AND latest_version_id = $3`; zero rows modified is
the parent-mismatch error. Unlike sqlite, there is no extra
`latest_version_id = nil` escape. -/
def PgDb.add_version (db : PgDb) (cid version_id parent_version_id : Nat)
    (history_segment : List Nat) : Except String PgDb :=
  if (lookupKey version_id db.versions).isSome then
    .error "error inserting new version"
  else
    let db₁ := { db with
      versions := upsertKey version_id (cid, parent_version_id, history_segment) db.versions }
    match lookupKey cid db₁.clients with
    | some row =>
      if row.latest_version_id = parent_version_id then
        let row' := { row with
          latest_version_id := version_id,
          versions_since_snapshot := row.versions_since_snapshot.map (· + 1) }
        .ok { db₁ with clients := upsertKey cid row' db₁.clients }
      else .error "clients.latest_version_id does not match parent_version_id"
    | none => .error "clients.latest_version_id does not match parent_version_id"

/-! Web layer from `src/server/src/web.rs` and
`src/server/src/api/add_version.rs`. -/

/-- Web-level configuration (`web.rs`, `struct WebConfig`; the listen
addresses are transport-only and omitted). -/
structure WebConfig where
  client_id_allowlist : Option (List Nat)
  create_clients : Bool
deriving DecidableEq

/-- Default web configuration: `create_clients` defaults to `true`. -/
def WebConfig.defaults : WebConfig := ⟨none, true⟩

/-- Outcome of the `add-version` endpoint, after the transport checks:
200 with the new version id and urgency, 409 with the expected parent,
404, or 500. -/
inductive HttpOut where
  | okOut (version_id : Nat) (urgency : SnapshotUrgency)
  | conflict (parent_version_id : Nat)
  | notFound
  | internalError
deriving DecidableEq

/-- HTTP status assigned to an engine error by `server_error_to_actix`
(`api/mod.rs`): `NoSuchClient` is 404, anything else 500. -/
def serverErrorStatus : SvError → Nat
  | .NoSuchClient => 404
  | .Other _ => 500

/-- The `add-version` endpoint handler (`api/add_version.rs`, the `loop`
in `service`), after content-type, client-id and body checks. On
`NoSuchClient` the handler unconditionally creates the client with the
nil latest version in a separate committed transaction and repeats the
call — the `web` configuration (including `create_clients`) is not
consulted. The source loops; since the created client exists, the second
attempt cannot observe `NoSuchClient`, so the loop is unrolled once (the
unreachable repeat case is mapped to 404 as `server_error_to_actix`
would). -/
def add_version_service (_web : WebConfig) (config : ServerConfig) (st : Inner)
    (cid parent_version_id : Nat) (body : List Nat) (freshId : Nat) (now : Int) :
    HttpOut × Inner :=
  match Server.add_version config st cid parent_version_id body freshId now with
  | .ok ((.Ok v, urgency), st') => (.okOut v urgency, st')
  | .ok ((.ExpectedParentVersion p, _), st') => (.conflict p, st')
  | .error (.Other _) => (.internalError, st)
  | .error .NoSuchClient =>
    match Inner.new_client st cid 0 with
    | .error _ => (.internalError, st)
    | .ok st₁ =>
      match Server.add_version config st₁ cid parent_version_id body freshId now with
      | .ok ((.Ok v, urgency), st') => (.okOut v urgency, st')
      | .ok ((.ExpectedParentVersion p, _), st') => (.conflict p, st')
      | .error .NoSuchClient => (.notFound, st₁)
      | .error (.Other _) => (.internalError, st₁)

/-! Spec-side definitions, written from the specification's wording for
comparison with the embedded code. -/

/-- Urgency by days as the claim states it: `High` iff `d ≥ 3D/2` with
floor division (`Int.fdiv`), else `Low` iff `d ≥ D`, else `None`. -/
def urgencyByDaysClaim (config : ServerConfig) (days : Int) : SnapshotUrgency :=
  if days ≥ Int.fdiv (config.snapshot_days * 3) 2 then .High
  else if days ≥ config.snapshot_days then .Low
  else .None

/-- Urgency by versions as the claim states it: `High` iff `n ≥ 3V/2`
with floor division over the integers, else `Low` iff `n ≥ V`, else
`None`. -/
def urgencyByVersionsClaim (config : ServerConfig) (n : Nat) : SnapshotUrgency :=
  if n ≥ config.snapshot_versions * 3 / 2 then .High
  else if n ≥ config.snapshot_versions then .Low
  else .None

/-- One step of the snapshot chain walk: from a version id to its
parent's id, absorbing to `none` once a version is missing from storage. -/
def snapStep (st : Inner) (cid : Nat) : Option Nat → Option Nat
  | none => none
  | some vid => (Inner.get_version st cid vid).map (·.parent_version_id)

/-- Version id visited after `i` parent steps starting from `vid`. -/
def visitedFrom (st : Inner) (cid vid : Nat) (i : Nat) : Option Nat :=
  (snapStep st cid)^[i] (some vid)

/-- Acceptance condition of `AddSnapshot`, stated non-operationally: the
requested `version_id` is non-nil and is visited within the look-back
window (the latest version plus at most four parent steps), and no
earlier step of the walk hits the existing snapshot's version or the nil
version (a missing version is absorbed by `visitedFrom` itself). -/
def specAccept (st : Inner) (cid : Nat) (client : Client) (version_id : Nat) : Prop :=
  version_id ≠ 0 ∧
    ∃ i, i < 5 ∧ visitedFrom st cid client.latest_version_id i = some version_id ∧
      ∀ j, j < i → ∀ w, visitedFrom st cid client.latest_version_id j = some w →
        some w ≠ client.snapshot.map (·.version_id) ∧ w ≠ 0

/-! General lemmas about the chain walk. -/

theorem iterate_snapStep_none (st : Inner) (cid : Nat) (k : Nat) :
    (snapStep st cid)^[k] none = none := by
  induction k with
  | zero => rfl
  | succ k ih => rw [Function.iterate_succ_apply]; exact ih

theorem visitedFrom_zero (st : Inner) (cid vid : Nat) :
    visitedFrom st cid vid 0 = some vid := rfl

theorem visitedFrom_succ {st : Inner} {cid vid : Nat} {p : Version}
    (h : Inner.get_version st cid vid = some p) (i : Nat) :
    visitedFrom st cid vid (i + 1) = visitedFrom st cid p.parent_version_id i := by
  unfold visitedFrom
  rw [Function.iterate_succ_apply]
  simp [snapStep, h]

theorem visitedFrom_succ_none {st : Inner} {cid vid : Nat}
    (h : Inner.get_version st cid vid = none) (i : Nat) :
    visitedFrom st cid vid (i + 1) = none := by
  unfold visitedFrom
  rw [Function.iterate_succ_apply]
  simp [snapStep, h, iterate_snapStep_none]

theorem snapshotLoop_one (st : Inner) (cid : Nat) (lastSnap : Option Nat)
    (target vid : Nat) :
    snapshotLoop st cid lastSnap target 1 vid = true ↔ (vid = target ∧ target ≠ 0) := by
  rw [snapshotLoop]
  split_ifs with h1 h2 <;> simp_all

theorem snapshotLoop_succ_succ (st : Inner) (cid : Nat) (lastSnap : Option Nat)
    (target : Nat) (n vid : Nat) :
    snapshotLoop st cid lastSnap target (n + 2) vid = true ↔
      ((vid = target ∧ target ≠ 0) ∨
        (¬(vid = target ∧ target ≠ 0) ∧ some vid ≠ lastSnap ∧ vid ≠ 0 ∧
          ∃ p, Inner.get_version st cid vid = some p ∧
            snapshotLoop st cid lastSnap target (n + 1) p.parent_version_id = true)) := by
  by_cases hacc : vid = target ∧ target ≠ 0
  · rw [snapshotLoop]
    simp [hacc]
  · by_cases hls : some vid = lastSnap
    · rw [snapshotLoop]
      simp [hacc, hls]
    · by_cases hv0 : vid = 0
      · rw [snapshotLoop]
        simp [hacc, hls, hv0]
      · rw [snapshotLoop]
        cases hgv : Inner.get_version st cid vid with
        | none => simp [hacc, hls, hv0, hgv]
        | some p => simp [hacc, hls, hv0, hgv]

theorem snapshotLoop_true_iff (st : Inner) (cid : Nat) (lastSnap : Option Nat)
    (target : Nat) :
    ∀ n vid, snapshotLoop st cid lastSnap target (n + 1) vid = true ↔
      (target ≠ 0 ∧ ∃ i, i < n + 1 ∧ visitedFrom st cid vid i = some target ∧
        ∀ j, j < i → ∀ w, visitedFrom st cid vid j = some w →
          some w ≠ lastSnap ∧ w ≠ 0) := by
  intro n
  induction n with
  | zero =>
    intro vid
    rw [snapshotLoop_one]
    constructor
    · rintro ⟨hv, ht⟩
      exact ⟨ht, 0, by omega, by rw [visitedFrom_zero, hv], fun j hj => absurd hj (by omega)⟩
    · rintro ⟨ht, i, hi, hvis, _⟩
      interval_cases i
      rw [visitedFrom_zero] at hvis
      exact ⟨Option.some_injective _ hvis, ht⟩
  | succ n ih =>
    intro vid
    rw [snapshotLoop_succ_succ]
    constructor
    · rintro (⟨hv, ht⟩ | ⟨_, hns, hn0, p, hgv, hloop⟩)
      · exact ⟨ht, 0, by omega, by rw [visitedFrom_zero, hv], fun j hj => absurd hj (by omega)⟩
      · obtain ⟨ht, i, hi, hvis, hcon⟩ := (ih p.parent_version_id).mp hloop
        refine ⟨ht, i + 1, by omega, by rw [visitedFrom_succ hgv]; exact hvis, ?_⟩
        intro j hj w hw
        match j with
        | 0 =>
          rw [visitedFrom_zero] at hw
          cases hw
          exact ⟨hns, hn0⟩
        | j + 1 =>
          rw [visitedFrom_succ hgv] at hw
          exact hcon j (by omega) w hw
    · rintro ⟨ht, i, hi, hvis, hcon⟩
      by_cases hacc : vid = target ∧ target ≠ 0
      · exact Or.inl hacc
      · refine Or.inr ⟨hacc, ?_⟩
        match i with
        | 0 =>
          rw [visitedFrom_zero] at hvis
          exact absurd ⟨Option.some_injective _ hvis, ht⟩ hacc
        | i + 1 =>
          have h0 := hcon 0 (by omega) vid (visitedFrom_zero st cid vid)
          refine ⟨h0.1, h0.2, ?_⟩
          cases hgv : Inner.get_version st cid vid with
          | none =>
            rw [visitedFrom_succ_none hgv] at hvis
            cases hvis
          | some p =>
            rw [visitedFrom_succ hgv] at hvis
            refine ⟨p, rfl, (ih p.parent_version_id).mpr ⟨ht, i, by omega, hvis, ?_⟩⟩
            intro j hj w hw
            refine hcon (j + 1) (by omega) w ?_
            rw [visitedFrom_succ hgv]
            exact hw

/-- Helper: when the client's latest version is nil, the engine's
`add_version` skips the conflict check and the in-memory backend accepts
any parent, so the call succeeds whenever the parent has no child yet and
the fresh id is new, with the explicit resulting state. -/
theorem add_version_ok_of_nil_latest (config : ServerConfig) (st : Inner)
    (cid parent_version_id : Nat) (seg : List Nat) (freshId : Nat) (now : Int)
    (client : Client) (hc : Inner.get_client st cid = some client)
    (hlat : client.latest_version_id = 0)
    (hchild : lookupKey (cid, parent_version_id) st.children = none)
    (hver : lookupKey (cid, freshId) st.versions = none) :
    Server.add_version config st cid parent_version_id seg freshId now =
      .ok ((.Ok freshId, preCallUrgency config client now),
        { st with
          clients := upsertKey cid
            ⟨freshId,
             client.snapshot.map (fun s => { s with versions_since := s.versions_since + 1 })⟩
            st.clients,
          children := upsertKey (cid, parent_version_id) freshId st.children,
          versions := upsertKey (cid, freshId)
            ⟨freshId, parent_version_id, seg⟩ st.versions }) := by
  have hc' : lookupKey cid st.clients = some client := hc
  unfold Server.add_version Inner.add_version
  rw [hc]
  simp [hlat, hc', hchild, hver]

theorem snapshotLoopCalls_le (st : Inner) (cid : Nat) (lastSnap : Option Nat)
    (target : Nat) :
    ∀ n vid, snapshotLoopCalls st cid lastSnap target n vid ≤ n := by
  intro n
  induction n with
  | zero =>
    intro vid
    rw [snapshotLoopCalls]
    split_ifs <;> simp
  | succ n ih =>
    intro vid
    rw [snapshotLoopCalls]
    split_ifs
    · omega
    · omega
    · omega
    · cases hgv : Inner.get_version st cid vid with
      | none => simp [hgv]
      | some p =>
        simp only [hgv]
        have := ih p.parent_version_id
        omega

/-! Claim theorems. -/

/-- C2: for every client whose `latest_version_id` is not nil and every
`AddVersion` call whose `parent_version_id` differs from that latest, the
engine returns `ExpectedParentVersion(latest_version_id)` with urgency
`None` and commits no write: the returned storage state is the input
state unchanged, so in particular `get_version_by_parent(latest)` and the
client record are exactly what they were before the call. -/
theorem add_version_conflict_frame (config : ServerConfig) (st : Inner)
    (cid parent_version_id : Nat) (seg : List Nat) (freshId : Nat) (now : Int)
    (client : Client) (hc : Inner.get_client st cid = some client)
    (hl : client.latest_version_id ≠ 0)
    (hp : parent_version_id ≠ client.latest_version_id) :
    Server.add_version config st cid parent_version_id seg freshId now =
      .ok ((.ExpectedParentVersion client.latest_version_id, .None), st) := by
  unfold Server.add_version
  rw [hc]
  simp [hl, hp]

/-- Witness for C2: on a concrete store whose client has latest version 3,
adding with parent 2 is rejected with the expected parent and an
unchanged state. -/
theorem add_version_conflict_frame_witness :
    Server.add_version ⟨14, 100⟩ ⟨[(1, ⟨3, none⟩)], [], [], []⟩ 1 2 [9] 7 0 =
      .ok ((.ExpectedParentVersion 3, .None), ⟨[(1, ⟨3, none⟩)], [], [], []⟩) :=
  add_version_conflict_frame ⟨14, 100⟩ ⟨[(1, ⟨3, none⟩)], [], [], []⟩ 1 2 [9] 7 0
    ⟨3, none⟩ rfl (by decide) (by decide)

/-- C3: for every existing client, `GetChildVersion` returns `Success`
with the stored version's fields when a version with the requested parent
exists; otherwise it returns `NotFound` when the client's latest version
equals the requested parent or is nil, and `Gone` in every other case. -/
theorem get_child_version_cases (st : Inner) (cid parent_version_id : Nat)
    (client : Client) (hc : Inner.get_client st cid = some client) :
    (∀ v, Inner.get_version_by_parent st cid parent_version_id = some v →
      Server.get_child_version st cid parent_version_id =
        .ok (.Success v.version_id v.parent_version_id v.history_segment)) ∧
    (Inner.get_version_by_parent st cid parent_version_id = none →
      (client.latest_version_id = parent_version_id ∨ client.latest_version_id = 0) →
      Server.get_child_version st cid parent_version_id = .ok .NotFound) ∧
    (Inner.get_version_by_parent st cid parent_version_id = none →
      client.latest_version_id ≠ parent_version_id → client.latest_version_id ≠ 0 →
      Server.get_child_version st cid parent_version_id = .ok .Gone) := by
  refine ⟨?_, ?_, ?_⟩
  · intro v hv
    unfold Server.get_child_version
    rw [hc, hv]
  · intro hnone hor
    unfold Server.get_child_version
    rw [hc, hnone]
    simp [hor]
  · intro hnone hne hnil
    unfold Server.get_child_version
    rw [hc, hnone]
    simp [hne, hnil]

/-- Witness for C3: on a store with a single version 5 (parent nil,
payload `[7]`) and latest 5, the three cases evaluate as claimed for
parents 0, 5 and 9. -/
theorem get_child_version_cases_witness :
    Server.get_child_version ⟨[(1, ⟨5, none⟩)], [], [((1, 5), ⟨5, 0, [7]⟩)], [((1, 0), 5)]⟩ 1 0 =
      .ok (.Success 5 0 [7]) ∧
    Server.get_child_version ⟨[(1, ⟨5, none⟩)], [], [((1, 5), ⟨5, 0, [7]⟩)], [((1, 0), 5)]⟩ 1 5 =
      .ok .NotFound ∧
    Server.get_child_version ⟨[(1, ⟨5, none⟩)], [], [((1, 5), ⟨5, 0, [7]⟩)], [((1, 0), 5)]⟩ 1 9 =
      .ok .Gone :=
  ⟨(get_child_version_cases ⟨[(1, ⟨5, none⟩)], [], [((1, 5), ⟨5, 0, [7]⟩)], [((1, 0), 5)]⟩
      1 0 ⟨5, none⟩ rfl).1 ⟨5, 0, [7]⟩ rfl,
   (get_child_version_cases ⟨[(1, ⟨5, none⟩)], [], [((1, 5), ⟨5, 0, [7]⟩)], [((1, 0), 5)]⟩
      1 5 ⟨5, none⟩ rfl).2.1 rfl (Or.inl rfl),
   (get_child_version_cases ⟨[(1, ⟨5, none⟩)], [], [((1, 5), ⟨5, 0, [7]⟩)], [((1, 0), 5)]⟩
      1 9 ⟨5, none⟩ rfl).2.2 rfl (by decide) (by decide)⟩

/-- C9: on every storage state and input, `AddSnapshot` performs at most
`SNAPSHOT_SEARCH_LEN = 5` `get_version` calls before accepting or
rejecting; the walk is a structurally terminating recursion on the
decreasing `search_len` counter. -/
theorem add_snapshot_call_bound (st : Inner) (cid version_id : Nat) :
    Server.add_snapshot_gv_calls st cid version_id ≤ 5 := by
  unfold Server.add_snapshot_gv_calls
  cases hc : Inner.get_client st cid with
  | none => simp
  | some client =>
    simp only
    split_ifs
    · omega
    · exact snapshotLoopCalls_le st cid (client.snapshot.map (·.version_id)) version_id 5
        client.latest_version_id

/-- Witness for C9: the bound evaluated on a concrete store (client with
latest version 3 and a stored chain) for a snapshot request naming an
unknown version. -/
theorem add_snapshot_call_bound_witness :
    Server.add_snapshot_gv_calls ⟨[(1, ⟨3, none⟩)], [], [((1, 3), ⟨3, 0, []⟩)], [((1, 0), 3)]⟩
      1 9 ≤ 5 :=
  add_snapshot_call_bound ⟨[(1, ⟨3, none⟩)], [], [((1, 3), ⟨3, 0, []⟩)], [((1, 0), 3)]⟩ 1 9

/-- C5: for every existing client, `AddSnapshot` writes the snapshot
(with the given version, `versions_since = 0` and the given bytes) if and
only if the requested version is non-nil and is reached by walking parent
links from the latest version within the look-back bound before reaching
the existing snapshot's version; in every other case (same version as the
existing snapshot, the walk meeting the existing snapshot's version,
budget exhausted, nil reached, or a missing version — all folded into
`specAccept`) the call still succeeds and returns the state unchanged. -/
theorem add_snapshot_characterization (st : Inner) (cid version_id : Nat)
    (data : List Nat) (now : Int) (client : Client)
    (hc : Inner.get_client st cid = some client) :
    (some version_id = client.snapshot.map (·.version_id) →
      Server.add_snapshot st cid version_id data now = .ok st) ∧
    (some version_id ≠ client.snapshot.map (·.version_id) →
      specAccept st cid client version_id →
      Server.add_snapshot st cid version_id data now =
        .ok { st with
          clients := upsertKey cid { client with snapshot := some ⟨version_id, now, 0⟩ } st.clients,
          snapshots := upsertKey cid data st.snapshots }) ∧
    (some version_id ≠ client.snapshot.map (·.version_id) →
      ¬specAccept st cid client version_id →
      Server.add_snapshot st cid version_id data now = .ok st) := by
  have hiff := snapshotLoop_true_iff st cid (client.snapshot.map (·.version_id)) version_id 4
    client.latest_version_id
  have h45 : (4 : Nat) + 1 = 5 := rfl
  rw [h45] at hiff
  refine ⟨?_, ?_, ?_⟩
  · intro h
    unfold Server.add_snapshot
    rw [hc]
    simp [h]
  · intro hne hspec
    unfold Server.add_snapshot
    rw [hc]
    have hloop : snapshotLoop st cid (client.snapshot.map (·.version_id)) version_id 5
        client.latest_version_id = true := hiff.mpr hspec
    have hc' : lookupKey cid st.clients = some client := hc
    simp [hne, hloop, Inner.set_snapshot, hc']
  · intro hne hspec
    unfold Server.add_snapshot
    rw [hc]
    have hloop : snapshotLoop st cid (client.snapshot.map (·.version_id)) version_id 5
        client.latest_version_id = false := by
      cases hl : snapshotLoop st cid (client.snapshot.map (·.version_id)) version_id 5
        client.latest_version_id
      · rfl
      · exact absurd (hiff.mp hl) hspec
    simp [hne, hloop]

/-- Witness for C5: a client with latest version 3 (stored with parent
nil) and no snapshot accepts a snapshot for version 3, writing the
snapshot metadata with `versions_since = 0` and the supplied bytes. -/
theorem add_snapshot_characterization_witness :
    Server.add_snapshot ⟨[(1, ⟨3, none⟩)], [], [((1, 3), ⟨3, 0, []⟩)], [((1, 0), 3)]⟩
        1 3 [1, 2, 3] 100 =
      .ok ⟨[(1, ⟨3, some ⟨3, 100, 0⟩⟩)], [(1, [1, 2, 3])],
           [((1, 3), ⟨3, 0, []⟩)], [((1, 0), 3)]⟩ :=
  (add_snapshot_characterization ⟨[(1, ⟨3, none⟩)], [], [((1, 3), ⟨3, 0, []⟩)], [((1, 0), 3)]⟩
      1 3 [1, 2, 3] 100 ⟨3, none⟩ rfl).2.1 (by decide)
    ⟨by decide, 0, by omega, rfl, fun j hj => absurd hj (by omega)⟩

/-- Counterexample for C4: with `snapshot_days = -1` (the `i64`
configuration field is unconstrained) and a snapshot aged exactly `-2`
days, a successful `AddVersion` returns urgency `None`, while the claim's
formula — `High` iff `age_days ≥ 3D/2` computed with floor division —
yields `High`: Rust's `i64` division truncates toward zero, so the code
compares against `-1` where the claim's floor division compares against
`-2`. -/
theorem add_version_urgency_floor_counterexample :
    Server.add_version ⟨-1, 100⟩
        ⟨[(1, ⟨3, some ⟨3, 172800, 0⟩⟩)], [], [((1, 3), ⟨3, 0, []⟩)], [((1, 0), 3)]⟩
        1 3 [1] 7 0 =
      .ok ((.Ok 7, .None),
        ⟨[(1, ⟨7, some ⟨3, 172800, 1⟩⟩)], [],
         [((1, 3), ⟨3, 0, []⟩), ((1, 7), ⟨7, 3, [1]⟩)],
         [((1, 0), 3), ((1, 3), 7)]⟩) ∧
    SnapshotUrgency.max (urgencyByDaysClaim ⟨-1, 100⟩ (Int.tdiv (0 - 172800) 86400))
        (urgencyByVersionsClaim ⟨-1, 100⟩ 0) = .High ∧
    SnapshotUrgency.None ≠ SnapshotUrgency.High :=
  ⟨rfl, rfl, by decide⟩

/-- C4 as amended: for every successful `AddVersion` call the returned
urgency equals the maximum of the day-based and version-based urgencies
computed from the client's pre-call snapshot fields, both `High` when no
snapshot exists — with the thresholds computed by Rust's truncating
integer division of the two's-complement-wrapped `i64` product `3D` and
by wrapping `u32` arithmetic. The claim's floor-division reading
coincides with the code's day threshold whenever `snapshot_days ≥ 0` and
`snapshot_days * 3` does not overflow `i64`, and with the version
threshold whenever `snapshot_versions * 3` does not overflow `u32` (in
particular at the defaults 14 and 100). -/
theorem add_version_urgency_amended :
    (∀ (config : ServerConfig) (st : Inner) (cid parent_version_id : Nat)
       (seg : List Nat) (freshId : Nat) (now : Int) (client : Client)
       (r : Nat) (u : SnapshotUrgency) (st' : Inner),
       Inner.get_client st cid = some client →
       Server.add_version config st cid parent_version_id seg freshId now =
         .ok ((.Ok r, u), st') →
       u = preCallUrgency config client now) ∧
    (∀ (config : ServerConfig) (client : Client) (now : Int),
       client.snapshot = none → preCallUrgency config client now = .High) ∧
    (∀ (config : ServerConfig) (d : Int), 0 ≤ config.snapshot_days →
       config.snapshot_days * 3 < 9223372036854775808 →
       urgencyByDaysClaim config d = SnapshotUrgency.for_days config d) ∧
    (∀ (config : ServerConfig) (n : Nat), config.snapshot_versions * 3 < 4294967296 →
       urgencyByVersionsClaim config n = SnapshotUrgency.for_versions_since config n) := by
  refine ⟨?_, ?_, ?_, ?_⟩
  · intro config st cid parent_version_id seg freshId now client r u st' hc h
    unfold Server.add_version at h
    rw [hc] at h
    simp only [] at h
    by_cases hcond : client.latest_version_id ≠ 0 ∧ parent_version_id ≠ client.latest_version_id
    · rw [if_pos hcond] at h
      simp at h
    · rw [if_neg hcond] at h
      cases hadd : Inner.add_version st cid freshId parent_version_id seg with
      | error e => rw [hadd] at h; simp at h
      | ok st₂ =>
        rw [hadd] at h
        simp only [Except.ok.injEq, Prod.mk.injEq] at h
        exact h.1.2.symm
  · intro config client now h
    simp [preCallUrgency, h]
    decide
  · intro config d h hno
    unfold urgencyByDaysClaim SnapshotUrgency.for_days
    have hw : wrapI64 (config.snapshot_days * 3) = config.snapshot_days * 3 := by
      unfold wrapI64
      omega
    rw [hw, Int.fdiv_eq_tdiv (Int.mul_nonneg h (by norm_num)) (by norm_num)]
  · intro config n h
    unfold urgencyByVersionsClaim SnapshotUrgency.for_versions_since
    rw [Nat.mod_eq_of_lt h]

/-- Witness for C4 amended: a successful call on a client with a
snapshot aged 50 days under the default configuration returns exactly the
pre-call maximum (here `High`), and the floor and truncating thresholds
agree at the default configuration. -/
theorem add_version_urgency_amended_witness :
    SnapshotUrgency.None = preCallUrgency ⟨-1, 100⟩ ⟨3, some ⟨3, 172800, 0⟩⟩ 0 ∧
    preCallUrgency ⟨14, 100⟩ ⟨3, none⟩ 0 = .High ∧
    urgencyByDaysClaim ⟨14, 100⟩ 21 = SnapshotUrgency.for_days ⟨14, 100⟩ 21 ∧
    urgencyByVersionsClaim ⟨14, 100⟩ 150 = SnapshotUrgency.for_versions_since ⟨14, 100⟩ 150 :=
  ⟨add_version_urgency_amended.1 ⟨-1, 100⟩
      ⟨[(1, ⟨3, some ⟨3, 172800, 0⟩⟩)], [], [((1, 3), ⟨3, 0, []⟩)], [((1, 0), 3)]⟩
      1 3 [1] 7 0 ⟨3, some ⟨3, 172800, 0⟩⟩ 7 .None
      ⟨[(1, ⟨7, some ⟨3, 172800, 1⟩⟩)], [],
       [((1, 3), ⟨3, 0, []⟩), ((1, 7), ⟨7, 3, [1]⟩)],
       [((1, 0), 3), ((1, 3), 7)]⟩ rfl rfl,
   add_version_urgency_amended.2.1 ⟨14, 100⟩ ⟨3, none⟩ 0 rfl,
   add_version_urgency_amended.2.2.1 ⟨14, 100⟩ 21 (by norm_num) (by norm_num),
   add_version_urgency_amended.2.2.2 ⟨14, 100⟩ 150 (by norm_num)⟩

/-- Counterexample for C1: the claim's "succeeds only if the client's
current `latest_version_id` equals `parent_version_id`" fails on two of
the three backends. The in-memory backend performs no parent check at
all: with latest version 5, adding version 7 with parent 9 succeeds (and
sets latest to 7). The sqlite backend additionally accepts any parent
when the latest version is nil: with latest 0, adding version 7 with
parent 9 succeeds. -/
theorem storage_add_version_cas_counterexample :
    Inner.add_version ⟨[(1, ⟨5, none⟩)], [], [], []⟩ 1 7 9 [1] =
      .ok ⟨[(1, ⟨7, none⟩)], [], [((1, 7), ⟨7, 9, [1]⟩)], [((1, 9), 7)]⟩ ∧
    (5 : Nat) ≠ 9 ∧
    SqliteDb.add_version ⟨[(1, ⟨0, none, none, none, none⟩)], []⟩ 1 7 9 [1] =
      .ok ⟨[(1, ⟨7, none, none, none, none⟩)], [(7, (1, 9, [1]))]⟩ ∧
    (0 : Nat) ≠ 9 :=
  ⟨rfl, by decide, rfl, by decide⟩

/-- C1 as amended: the postgres backend's `add_version` is the strict
compare-and-swap — given the client's row and a fresh `version_id`, it
succeeds exactly when `latest_version_id = parent_version_id`, updating
the latest version and incrementing `versions_since` when a snapshot
exists (NULL otherwise stays NULL); the sqlite backend succeeds exactly
when `latest_version_id` equals the parent or is nil; the in-memory
backend never compares the parent with the latest version and succeeds
whenever the client exists, the parent has no child yet and the version
is new; and all three fail when the given `version_id` already exists for
the client. -/
theorem storage_add_version_amended :
    (∀ (db : PgDb) (cid version_id parent_version_id : Nat) (seg : List Nat)
       (row : PgClientRow),
       lookupKey cid db.clients = some row →
       lookupKey version_id db.versions = none →
       (row.latest_version_id = parent_version_id →
          PgDb.add_version db cid version_id parent_version_id seg =
            .ok { db with
              clients := upsertKey cid
                { row with latest_version_id := version_id,
                           versions_since_snapshot := row.versions_since_snapshot.map (· + 1) }
                db.clients,
              versions := upsertKey version_id (cid, parent_version_id, seg) db.versions }) ∧
       (row.latest_version_id ≠ parent_version_id →
          PgDb.add_version db cid version_id parent_version_id seg =
            .error "clients.latest_version_id does not match parent_version_id")) ∧
    (∀ (db : PgDb) (cid version_id parent_version_id : Nat) (seg : List Nat)
       (x : Nat × Nat × List Nat),
       lookupKey version_id db.versions = some x →
       PgDb.add_version db cid version_id parent_version_id seg =
         .error "error inserting new version") ∧
    (∀ (db : SqliteDb) (cid version_id parent_version_id : Nat) (seg : List Nat)
       (row : SqliteClientRow),
       lookupKey cid db.clients = some row →
       lookupKey version_id db.versions = none →
       ((row.latest_version_id = parent_version_id ∨ row.latest_version_id = 0) →
          SqliteDb.add_version db cid version_id parent_version_id seg =
            .ok { db with
              clients := upsertKey cid
                { row with latest_version_id := version_id,
                           versions_since_snapshot := row.versions_since_snapshot.map (· + 1) }
                db.clients,
              versions := upsertKey version_id (cid, parent_version_id, seg) db.versions }) ∧
       (¬(row.latest_version_id = parent_version_id ∨ row.latest_version_id = 0) →
          SqliteDb.add_version db cid version_id parent_version_id seg =
            .error "clients.latest_version_id does not match parent_version_id")) ∧
    (∀ (db : SqliteDb) (cid version_id parent_version_id : Nat) (seg : List Nat)
       (x : Nat × Nat × List Nat),
       lookupKey version_id db.versions = some x →
       SqliteDb.add_version db cid version_id parent_version_id seg =
         .error "Error adding version") ∧
    (∀ (st : Inner) (cid version_id parent_version_id : Nat) (seg : List Nat)
       (client : Client),
       lookupKey cid st.clients = some client →
       lookupKey (cid, parent_version_id) st.children = none →
       lookupKey (cid, version_id) st.versions = none →
       Inner.add_version st cid version_id parent_version_id seg =
         .ok { st with
           clients := upsertKey cid
             ⟨version_id,
              client.snapshot.map (fun s => { s with versions_since := s.versions_since + 1 })⟩
             st.clients,
           children := upsertKey (cid, parent_version_id) version_id st.children,
           versions := upsertKey (cid, version_id)
             ⟨version_id, parent_version_id, seg⟩ st.versions }) ∧
    (∀ (st : Inner) (cid version_id parent_version_id : Nat) (seg : List Nat)
       (client : Client) (x : Version),
       lookupKey cid st.clients = some client →
       lookupKey (cid, parent_version_id) st.children = none →
       lookupKey (cid, version_id) st.versions = some x →
       Inner.add_version st cid version_id parent_version_id seg =
         .error "Client already has a version") := by
  refine ⟨?_, ?_, ?_, ?_, ?_, ?_⟩
  · intro db cid version_id parent_version_id seg row hrow hver
    constructor
    · intro hlat
      unfold PgDb.add_version
      simp [hver, hrow, hlat]
    · intro hlat
      unfold PgDb.add_version
      simp [hver, hrow, hlat]
  · intro db cid version_id parent_version_id seg x hx
    unfold PgDb.add_version
    simp [hx]
  · intro db cid version_id parent_version_id seg row hrow hver
    constructor
    · intro hlat
      unfold SqliteDb.add_version
      simp [hver, hrow, hlat]
    · intro hlat
      unfold SqliteDb.add_version
      simp [hver, hrow, hlat]
  · intro db cid version_id parent_version_id seg x hx
    unfold SqliteDb.add_version
    simp [hx]
  · intro st cid version_id parent_version_id seg client hclient hchild hver
    unfold Inner.add_version
    simp [hclient, hchild, hver]
  · intro st cid version_id parent_version_id seg client x hclient hchild hver
    unfold Inner.add_version
    simp [hclient, hchild, hver]

/-- Witness for C1 amended: each backend's behaviours evaluated on
one-row stores — postgres accepts a matching parent and rejects a
mismatched one, sqlite accepts a matching parent, the in-memory backend
accepts a mismatched parent while bumping `versions_since`, and duplicate
version ids fail on postgres, sqlite and in-memory. -/
theorem storage_add_version_amended_witness :
    PgDb.add_version ⟨[(1, ⟨5, none, none, none, none⟩)], []⟩ 1 7 5 [2] =
      .ok ⟨[(1, ⟨7, none, none, none, none⟩)], [(7, (1, 5, [2]))]⟩ ∧
    PgDb.add_version ⟨[(1, ⟨5, none, none, none, none⟩)], []⟩ 1 7 9 [2] =
      .error "clients.latest_version_id does not match parent_version_id" ∧
    PgDb.add_version ⟨[(1, ⟨5, none, none, none, none⟩)], [(7, (1, 0, []))]⟩ 1 7 5 [2] =
      .error "error inserting new version" ∧
    SqliteDb.add_version ⟨[(1, ⟨5, none, none, none, none⟩)], []⟩ 1 7 5 [2] =
      .ok ⟨[(1, ⟨7, none, none, none, none⟩)], [(7, (1, 5, [2]))]⟩ ∧
    SqliteDb.add_version ⟨[(1, ⟨5, none, none, none, none⟩)], [(7, (1, 0, []))]⟩ 1 7 5 [2] =
      .error "Error adding version" ∧
    Inner.add_version ⟨[(1, ⟨5, some ⟨9, 50, 2⟩⟩)], [], [], []⟩ 1 7 3 [2] =
      .ok ⟨[(1, ⟨7, some ⟨9, 50, 3⟩⟩)], [], [((1, 7), ⟨7, 3, [2]⟩)], [((1, 3), 7)]⟩ ∧
    Inner.add_version ⟨[(1, ⟨5, none⟩)], [], [((1, 7), ⟨7, 3, []⟩)], [((1, 3), 7)]⟩ 1 7 4 [2] =
      .error "Client already has a version" :=
  ⟨(storage_add_version_amended.1 ⟨[(1, ⟨5, none, none, none, none⟩)], []⟩
      1 7 5 [2] ⟨5, none, none, none, none⟩ rfl rfl).1 rfl,
   (storage_add_version_amended.1 ⟨[(1, ⟨5, none, none, none, none⟩)], []⟩
      1 7 9 [2] ⟨5, none, none, none, none⟩ rfl rfl).2 (by decide),
   storage_add_version_amended.2.1 ⟨[(1, ⟨5, none, none, none, none⟩)], [(7, (1, 0, []))]⟩
      1 7 5 [2] (1, 0, []) rfl,
   (storage_add_version_amended.2.2.1 ⟨[(1, ⟨5, none, none, none, none⟩)], []⟩
      1 7 5 [2] ⟨5, none, none, none, none⟩ rfl rfl).1 (Or.inl rfl),
   storage_add_version_amended.2.2.2.1 ⟨[(1, ⟨5, none, none, none, none⟩)], [(7, (1, 0, []))]⟩
      1 7 5 [2] (1, 0, []) rfl,
   storage_add_version_amended.2.2.2.2.1 ⟨[(1, ⟨5, some ⟨9, 50, 2⟩⟩)], [], [], []⟩
      1 7 3 [2] ⟨5, some ⟨9, 50, 2⟩⟩ rfl rfl rfl,
   storage_add_version_amended.2.2.2.2.2 ⟨[(1, ⟨5, none⟩)], [], [((1, 7), ⟨7, 3, []⟩)], [((1, 3), 7)]⟩
      1 7 4 [2] ⟨5, none⟩ ⟨7, 3, []⟩ rfl rfl rfl⟩

/-- Counterexample for C6: the postgres backend does not signal a
mismatch error. With a stored snapshot for version 5, requesting the
snapshot data for version 6 returns the empty result `none` — precisely
the behaviour the claim excludes — and its own test
(`test_get_snapshot_mismatched_version`) asserts this. -/
theorem get_snapshot_data_mismatch_counterexample :
    PgDb.get_snapshot_data ⟨[(1, ⟨0, some 5, some 1, some 2, some [1, 2, 3]⟩)], []⟩ 1 6 =
      .ok none ∧
    (some 5 : Option Nat) ≠ some 6 :=
  ⟨rfl, by decide⟩

/-- C6 as amended: the sqlite and in-memory backends signal the
`"unexpected snapshot_version_id"` mismatch error when the argument
differs from the current snapshot's version and return the stored bytes
on a match; the postgres backend instead returns the bytes only on a
match and the empty result `none` on a mismatch, signalling no error. -/
theorem get_snapshot_data_amended :
    (∀ (db : PgDb) (cid version_id : Nat) (row : PgClientRow),
       lookupKey cid db.clients = some row →
       (row.snapshot_version_id = some version_id →
         PgDb.get_snapshot_data db cid version_id = .ok row.snapshot) ∧
       (row.snapshot_version_id ≠ some version_id →
         PgDb.get_snapshot_data db cid version_id = .ok none)) ∧
    (∀ (db : SqliteDb) (cid version_id : Nat) (row : SqliteClientRow)
       (v : Nat) (d : List Nat),
       lookupKey cid db.clients = some row →
       row.snapshot_version_id = some v → row.snapshot = some d →
       (v = version_id →
         SqliteDb.get_snapshot_data db cid version_id = .ok (some d)) ∧
       (v ≠ version_id →
         SqliteDb.get_snapshot_data db cid version_id =
           .error "unexpected snapshot_version_id")) ∧
    (∀ (st : Inner) (cid version_id : Nat) (client : Client),
       lookupKey cid st.clients = some client →
       (client.snapshot.map (·.version_id) = some version_id →
         Inner.get_snapshot_data st cid version_id = .ok (lookupKey cid st.snapshots)) ∧
       (client.snapshot.map (·.version_id) ≠ some version_id →
         Inner.get_snapshot_data st cid version_id =
           .error "unexpected snapshot_version_id")) := by
  refine ⟨?_, ?_, ?_⟩
  · intro db cid version_id row hrow
    constructor
    · intro hmatch
      unfold PgDb.get_snapshot_data
      simp [hrow, hmatch]
    · intro hmis
      unfold PgDb.get_snapshot_data
      simp [hrow, hmis]
  · intro db cid version_id row v d hrow hv hd
    constructor
    · intro hmatch
      unfold SqliteDb.get_snapshot_data
      simp [hrow, hv, hd, hmatch]
    · intro hmis
      unfold SqliteDb.get_snapshot_data
      simp [hrow, hv, hd, hmis]
  · intro st cid version_id client hclient
    constructor
    · intro hmatch
      unfold Inner.get_snapshot_data
      simp [hclient, hmatch]
    · intro hmis
      have hmis' : some version_id ≠ client.snapshot.map (·.version_id) :=
        fun he => hmis he.symm
      unfold Inner.get_snapshot_data
      simp [hclient, hmis']

/-- Witness for C6 amended: concrete match and mismatch evaluations on
all three backends. -/
theorem get_snapshot_data_amended_witness :
    PgDb.get_snapshot_data ⟨[(1, ⟨0, some 5, some 1, some 2, some [1, 2, 3]⟩)], []⟩ 1 5 =
      .ok (some [1, 2, 3]) ∧
    PgDb.get_snapshot_data ⟨[(1, ⟨0, some 5, some 1, some 2, some [1, 2, 3]⟩)], []⟩ 1 7 =
      .ok none ∧
    SqliteDb.get_snapshot_data ⟨[(1, ⟨0, some 5, some 1, some 2, some [4]⟩)], []⟩ 1 5 =
      .ok (some [4]) ∧
    SqliteDb.get_snapshot_data ⟨[(1, ⟨0, some 5, some 1, some 2, some [4]⟩)], []⟩ 1 6 =
      .error "unexpected snapshot_version_id" ∧
    Inner.get_snapshot_data ⟨[(1, ⟨0, some ⟨5, 2, 1⟩⟩)], [(1, [9])], [], []⟩ 1 5 =
      .ok (some [9]) ∧
    Inner.get_snapshot_data ⟨[(1, ⟨0, some ⟨5, 2, 1⟩⟩)], [(1, [9])], [], []⟩ 1 6 =
      .error "unexpected snapshot_version_id" :=
  ⟨(get_snapshot_data_amended.1 ⟨[(1, ⟨0, some 5, some 1, some 2, some [1, 2, 3]⟩)], []⟩
      1 5 ⟨0, some 5, some 1, some 2, some [1, 2, 3]⟩ rfl).1 rfl,
   (get_snapshot_data_amended.1 ⟨[(1, ⟨0, some 5, some 1, some 2, some [1, 2, 3]⟩)], []⟩
      1 7 ⟨0, some 5, some 1, some 2, some [1, 2, 3]⟩ rfl).2 (by decide),
   (get_snapshot_data_amended.2.1 ⟨[(1, ⟨0, some 5, some 1, some 2, some [4]⟩)], []⟩
      1 5 ⟨0, some 5, some 1, some 2, some [4]⟩ 5 [4] rfl rfl rfl).1 rfl,
   (get_snapshot_data_amended.2.1 ⟨[(1, ⟨0, some 5, some 1, some 2, some [4]⟩)], []⟩
      1 6 ⟨0, some 5, some 1, some 2, some [4]⟩ 5 [4] rfl rfl rfl).2 (by decide),
   (get_snapshot_data_amended.2.2 ⟨[(1, ⟨0, some ⟨5, 2, 1⟩⟩)], [(1, [9])], [], []⟩
      1 5 ⟨0, some ⟨5, 2, 1⟩⟩ rfl).1 rfl,
   (get_snapshot_data_amended.2.2 ⟨[(1, ⟨0, some ⟨5, 2, 1⟩⟩)], [(1, [9])], [], []⟩
      1 6 ⟨0, some ⟨5, 2, 1⟩⟩ rfl).2 (by decide)⟩

/-- C10: for every client whose latest version is nil, `AddVersion`
succeeds for any `parent_version_id` whatsoever — including a non-nil id
naming no stored version — storing the new version with that parent and
making it the client's latest, so the chain then ends at a parent link
resolving to no stored version; the sqlite backend's compare-and-swap
accepts the same call through its nil escape. -/
theorem add_version_nil_parent_free :
    (∀ (config : ServerConfig) (st : Inner) (cid parent_version_id : Nat)
       (seg : List Nat) (freshId : Nat) (now : Int) (client : Client),
       Inner.get_client st cid = some client →
       client.latest_version_id = 0 →
       lookupKey (cid, parent_version_id) st.children = none →
       lookupKey (cid, freshId) st.versions = none →
       Server.add_version config st cid parent_version_id seg freshId now =
         .ok ((.Ok freshId, preCallUrgency config client now),
           { st with
             clients := upsertKey cid
               ⟨freshId,
                client.snapshot.map (fun s => { s with versions_since := s.versions_since + 1 })⟩
               st.clients,
             children := upsertKey (cid, parent_version_id) freshId st.children,
             versions := upsertKey (cid, freshId)
               ⟨freshId, parent_version_id, seg⟩ st.versions })) ∧
    (∀ (config : ServerConfig) (st : Inner) (cid parent_version_id : Nat)
       (seg : List Nat) (freshId : Nat) (now : Int) (client : Client)
       (p : AddVersionResult × SnapshotUrgency) (st' : Inner),
       Inner.get_client st cid = some client →
       client.latest_version_id = 0 →
       lookupKey (cid, parent_version_id) st.children = none →
       lookupKey (cid, freshId) st.versions = none →
       Server.add_version config st cid parent_version_id seg freshId now = .ok (p, st') →
       Inner.get_client st' cid =
         some ⟨freshId,
           client.snapshot.map (fun s => { s with versions_since := s.versions_since + 1 })⟩ ∧
       Inner.get_version st' cid freshId = some ⟨freshId, parent_version_id, seg⟩ ∧
       (parent_version_id ≠ freshId → Inner.get_version st cid parent_version_id = none →
         Inner.get_version st' cid parent_version_id = none)) ∧
    (∀ (db : SqliteDb) (cid version_id parent_version_id : Nat) (seg : List Nat)
       (row : SqliteClientRow),
       lookupKey cid db.clients = some row →
       row.latest_version_id = 0 →
       lookupKey version_id db.versions = none →
       SqliteDb.add_version db cid version_id parent_version_id seg =
         .ok { db with
           clients := upsertKey cid
             { row with latest_version_id := version_id,
                        versions_since_snapshot := row.versions_since_snapshot.map (· + 1) }
             db.clients,
           versions := upsertKey version_id (cid, parent_version_id, seg) db.versions }) := by
  refine ⟨add_version_ok_of_nil_latest, ?_, ?_⟩
  · intro config st cid parent_version_id seg freshId now client p st' hc hlat hchild hver heq
    rw [add_version_ok_of_nil_latest config st cid parent_version_id seg freshId now client
      hc hlat hchild hver] at heq
    simp only [Except.ok.injEq, Prod.mk.injEq] at heq
    obtain ⟨-, hst⟩ := heq
    subst hst
    refine ⟨?_, ?_, ?_⟩
    · simp only [Inner.get_client]
      exact lookupKey_upsertKey_self cid _ st.clients
    · simp only [Inner.get_version]
      exact lookupKey_upsertKey_self (cid, freshId) _ st.versions
    · intro hne hnone
      simp only [Inner.get_version]
      rw [lookupKey_upsertKey_ne (by simp [hne]) _ st.versions]
      exact hnone
  · intro db cid version_id parent_version_id seg row hrow hlat hver
    unfold SqliteDb.add_version
    simp [hver, hrow, hlat]

/-- Witness for C10: a fresh client (latest nil) accepts a version with
the unknown parent 9; the resulting state has the new version as latest,
stores it with parent 9, and version 9 still resolves to nothing; the
sqlite backend accepts the same call. -/
theorem add_version_nil_parent_free_witness :
    Server.add_version ⟨14, 100⟩ ⟨[(1, ⟨0, none⟩)], [], [], []⟩ 1 9 [1] 7 0 =
      .ok ((.Ok 7, .High),
        ⟨[(1, ⟨7, none⟩)], [], [((1, 7), ⟨7, 9, [1]⟩)], [((1, 9), 7)]⟩) ∧
    Inner.get_client ⟨[(1, ⟨7, none⟩)], [], [((1, 7), ⟨7, 9, [1]⟩)], [((1, 9), 7)]⟩ 1 =
      some ⟨7, none⟩ ∧
    Inner.get_version ⟨[(1, ⟨7, none⟩)], [], [((1, 7), ⟨7, 9, [1]⟩)], [((1, 9), 7)]⟩ 1 7 =
      some ⟨7, 9, [1]⟩ ∧
    Inner.get_version ⟨[(1, ⟨7, none⟩)], [], [((1, 7), ⟨7, 9, [1]⟩)], [((1, 9), 7)]⟩ 1 9 =
      none ∧
    SqliteDb.add_version ⟨[(1, ⟨0, none, none, none, none⟩)], []⟩ 1 7 9 [4] =
      .ok ⟨[(1, ⟨7, none, none, none, none⟩)], [(7, (1, 9, [4]))]⟩ := by
  have h1 := add_version_nil_parent_free.1 ⟨14, 100⟩ ⟨[(1, ⟨0, none⟩)], [], [], []⟩
    1 9 [1] 7 0 ⟨0, none⟩ rfl rfl rfl rfl
  have h2 := add_version_nil_parent_free.2.1 ⟨14, 100⟩ ⟨[(1, ⟨0, none⟩)], [], [], []⟩
    1 9 [1] 7 0 ⟨0, none⟩ (.Ok 7, .High)
    ⟨[(1, ⟨7, none⟩)], [], [((1, 7), ⟨7, 9, [1]⟩)], [((1, 9), 7)]⟩
    rfl rfl rfl rfl h1
  have h3 := add_version_nil_parent_free.2.2 ⟨[(1, ⟨0, none, none, none, none⟩)], []⟩
    1 7 9 [4] ⟨0, none, none, none, none⟩ rfl rfl rfl
  exact ⟨h1, h2.1, h2.2.1, h2.2.2 (by decide) rfl, h3⟩

/-- Counterexample for C7: with auto-create disabled
(`create_clients = false`) and no client stored, the `add-version`
handler still creates the client and answers 200 with a new version —
it neither signals `NoSuchClient` (404) nor refrains from creating the
client, because the handler never consults the flag. -/
theorem auto_create_ignores_flag_counterexample :
    add_version_service ⟨none, false⟩ ⟨14, 100⟩ ⟨[], [], [], []⟩ 1 0 [1] 7 0 =
      (.okOut 7 .High, ⟨[(1, ⟨7, none⟩)], [], [((1, 7), ⟨7, 0, [1]⟩)], [((1, 0), 7)]⟩) ∧
    (⟨none, false⟩ : WebConfig).create_clients = false ∧
    Inner.get_client ⟨[(1, ⟨7, none⟩)], [], [((1, 7), ⟨7, 0, [1]⟩)], [((1, 0), 7)]⟩ 1 =
      some ⟨7, none⟩ :=
  ⟨rfl, rfl, rfl⟩

/-- C7 as amended: for every `AddVersion` request naming a client that
does not exist, the handler creates the client with nil latest version in
a separate committed transaction and retries, and the retried call
succeeds — regardless of the `create_clients` setting, which exists in
the web configuration (default `true`) but is never consulted by the
handler; the engine's `NoSuchClient` error maps to 404 where it is
surfaced. -/
theorem add_version_service_amended :
    (∀ (web : WebConfig) (config : ServerConfig) (st : Inner)
       (cid parent_version_id : Nat) (body : List Nat) (freshId : Nat) (now : Int),
       Inner.get_client st cid = none →
       lookupKey (cid, parent_version_id) st.children = none →
       lookupKey (cid, freshId) st.versions = none →
       (add_version_service web config st cid parent_version_id body freshId now).1 =
         .okOut freshId .High ∧
       Inner.get_client
         (add_version_service web config st cid parent_version_id body freshId now).2 cid =
         some ⟨freshId, none⟩) ∧
    (∀ (web web₂ : WebConfig) (config : ServerConfig) (st : Inner)
       (cid parent_version_id : Nat) (body : List Nat) (freshId : Nat) (now : Int),
       add_version_service web config st cid parent_version_id body freshId now =
         add_version_service web₂ config st cid parent_version_id body freshId now) ∧
    WebConfig.defaults.create_clients = true ∧
    serverErrorStatus .NoSuchClient = 404 := by
  refine ⟨?_, fun _ _ _ _ _ _ _ _ _ => rfl, rfl, rfl⟩
  intro web config st cid parent_version_id body freshId now hc hchild hver
  have hfirst : Server.add_version config st cid parent_version_id body freshId now =
      .error .NoSuchClient := by
    unfold Server.add_version
    rw [hc]
  have hc' : lookupKey cid st.clients = none := hc
  have hnc : Inner.new_client st cid 0 =
      .ok { st with clients := upsertKey cid ⟨0, none⟩ st.clients } := by
    unfold Inner.new_client
    simp [hc']
  have hc1 : Inner.get_client { st with clients := upsertKey cid (⟨0, none⟩ : Client) st.clients }
      cid = some ⟨0, none⟩ := by
    simp only [Inner.get_client]
    exact lookupKey_upsertKey_self cid _ st.clients
  have hkey := add_version_ok_of_nil_latest config
    { st with clients := upsertKey cid (⟨0, none⟩ : Client) st.clients }
    cid parent_version_id body freshId now ⟨0, none⟩ hc1 rfl hchild hver
  have hres : add_version_service web config st cid parent_version_id body freshId now =
      (.okOut freshId (preCallUrgency config ⟨0, none⟩ now),
        { st with
          clients := upsertKey cid (⟨freshId, none⟩ : Client)
            (upsertKey cid (⟨0, none⟩ : Client) st.clients),
          children := upsertKey (cid, parent_version_id) freshId st.children,
          versions := upsertKey (cid, freshId)
            ⟨freshId, parent_version_id, body⟩ st.versions }) := by
    unfold add_version_service
    rw [hfirst]
    simp only []
    rw [hnc]
    simp only []
    rw [hkey]
    rfl
  rw [hres]
  constructor
  · rfl
  · simp only [Inner.get_client]
    exact lookupKey_upsertKey_self cid _ _

/-- Witness for C7 amended: the handler on an empty store creates client
1 and returns version 7 with urgency `High`; the result is independent of
the web configuration; and the error-to-status mapping sends
`NoSuchClient` to 404. -/
theorem add_version_service_amended_witness :
    (add_version_service ⟨none, true⟩ ⟨14, 100⟩ ⟨[], [], [], []⟩ 1 0 [1] 7 0).1 =
      .okOut 7 .High ∧
    Inner.get_client (add_version_service ⟨none, true⟩ ⟨14, 100⟩ ⟨[], [], [], []⟩
      1 0 [1] 7 0).2 1 = some ⟨7, none⟩ ∧
    add_version_service ⟨none, true⟩ ⟨14, 100⟩ ⟨[], [], [], []⟩ 1 0 [1] 7 0 =
      add_version_service ⟨some [1], false⟩ ⟨14, 100⟩ ⟨[], [], [], []⟩ 1 0 [1] 7 0 ∧
    serverErrorStatus .NoSuchClient = 404 :=
  ⟨(add_version_service_amended.1 ⟨none, true⟩ ⟨14, 100⟩ ⟨[], [], [], []⟩
      1 0 [1] 7 0 rfl rfl rfl).1,
   (add_version_service_amended.1 ⟨none, true⟩ ⟨14, 100⟩ ⟨[], [], [], []⟩
      1 0 [1] 7 0 rfl rfl rfl).2,
   add_version_service_amended.2.1 ⟨none, true⟩ ⟨some [1], false⟩ ⟨14, 100⟩
     ⟨[], [], [], []⟩ 1 0 [1] 7 0,
   add_version_service_amended.2.2.2⟩

/-- Counterexample for C8: a sqlite transaction that performed a write
(its pending state differs from its base state) and is dropped without
commit raises no fatal condition — the sqlite `Txn` has no `Drop`
implementation, so the claimed panic does not exist; the drop merely
rolls back to the base state. -/
theorem sqlite_drop_no_panic_counterexample :
    SqliteTxn.add_version
        ⟨⟨[(1, ⟨0, none, none, none, none⟩)], []⟩,
         ⟨[(1, ⟨0, none, none, none, none⟩)], []⟩⟩ 1 7 0 [1] =
      .ok ⟨⟨[(1, ⟨0, none, none, none, none⟩)], []⟩,
           ⟨[(1, ⟨7, none, none, none, none⟩)], [(7, (1, 0, [1]))]⟩⟩ ∧
    SqliteTxn.dropPanicFlag
        ⟨⟨[(1, ⟨0, none, none, none, none⟩)], []⟩,
         ⟨[(1, ⟨7, none, none, none, none⟩)], [(7, (1, 0, [1]))]⟩⟩ = false ∧
    SqliteTxn.drop
        ⟨⟨[(1, ⟨0, none, none, none, none⟩)], []⟩,
         ⟨[(1, ⟨7, none, none, none, none⟩)], [(7, (1, 0, [1]))]⟩⟩ =
      ⟨[(1, ⟨0, none, none, none, none⟩)], []⟩ ∧
    (⟨[(1, ⟨7, none, none, none, none⟩)], [(7, (1, 0, [1]))]⟩ : SqliteDb) ≠
      ⟨[(1, ⟨0, none, none, none, none⟩)], []⟩ :=
  ⟨rfl, rfl, rfl, by decide⟩

/-- C8 as amended: dropping a sqlite transaction without commit leaves
the persistent state unchanged (the implicit rollback restores the state
at `begin_txn`) but raises no fatal condition; the
fatal-condition-on-drop behaviour belongs to the in-memory storage, whose
transaction panics exactly when it performed writes and was not
committed. -/
theorem txn_drop_semantics_amended :
    (∀ t : SqliteTxn,
       SqliteTxn.drop t = t.base ∧ SqliteTxn.dropPanicFlag t = false ∧
       SqliteTxn.commit t = t.pending) ∧
    (∀ written committed : Bool,
       inMemoryDropPanicFlag written committed = true ↔
         (written = true ∧ committed = false)) := by
  refine ⟨fun t => ⟨rfl, rfl, rfl⟩, fun w c => ?_⟩
  cases w <;> cases c <;> simp [inMemoryDropPanicFlag]

/-- Witness for C8 amended: drop semantics evaluated on a concrete
written-but-uncommitted sqlite transaction, and the in-memory panic
condition evaluated at written and uncommitted flags. -/
theorem txn_drop_semantics_amended_witness :
    SqliteTxn.drop ⟨⟨[], []⟩, ⟨[(1, ⟨0, none, none, none, none⟩)], []⟩⟩ = ⟨[], []⟩ ∧
    SqliteTxn.dropPanicFlag ⟨⟨[], []⟩, ⟨[(1, ⟨0, none, none, none, none⟩)], []⟩⟩ = false ∧
    (inMemoryDropPanicFlag true false = true ↔ (true = true ∧ false = false)) :=
  ⟨(txn_drop_semantics_amended.1
      ⟨⟨[], []⟩, ⟨[(1, ⟨0, none, none, none, none⟩)], []⟩⟩).1,
   (txn_drop_semantics_amended.1
      ⟨⟨[], []⟩, ⟨[(1, ⟨0, none, none, none, none⟩)], []⟩⟩).2.1,
   txn_drop_semantics_amended.2 true false⟩

end TCSync
